import Mathlib

/-!
Shallow embedding of the local-machine OAuth2 callback flow of sfdx-core
(WebOAuthServer / WebServer) and of the DNS polling probe of
MyDomainResolver (src/unnamed/part_000).

The WebOAuthServer / WebServer implementation file is not part of the
source excerpt (only its unit tests are), so those operations are
modelled from the specification; each such definition carries a doc
comment starting with `Modelled from the spec:`.  MyDomainResolver's
`resolve` and its inner `poll` closure are translated directly from
src/unnamed/part_000.
-/

namespace Sfdx

/-- Substring search over character lists: `hasInfixChars sub l` is true
when `sub` occurs contiguously inside `l` (the embedding of JavaScript
`String.prototype.includes`). -/
def hasInfixChars (sub : List Char) : List Char → Bool
  | [] => sub.isEmpty
  | c :: cs => sub.isPrefixOf (c :: cs) || hasInfixChars sub cs

/-- `includesSub s sub` embeds JavaScript `s.includes(sub)`. -/
def includesSub (s sub : String) : Bool :=
  hasInfixChars sub.data s.data

/-- Modelled from the spec: the parsed callback request delivered by the
local server (query parameters `state` and `code`; absent parameters are
`none`). The source file webOAuthServer.ts is not under src/. -/
structure Request where
  state : Option String
  code : Option String
deriving Repr, DecidableEq

/-- Modelled from the spec: `WebOAuthServer.validateState` — extracts
the `state` query parameter from the callback request and compares it
byte-for-byte against the state token retained from the constructed
authorization URL; returns false on any mismatch, including absence.
The source file webOAuthServer.ts is not under src/. -/
def validateState (stateToken : String) (req : Request) : Bool :=
  match req.state with
  | some s => s == stateToken
  | none => false

/-- Observable side effects of one `parseAuthCodeFromRequest` call:
how many times the server's `closeRequest`, `sendError` and the external
code exchange were invoked. -/
structure ParseEffects where
  closeRequestCalls : Nat
  sendErrorCalls : Nat
  exchangeCalls : Nat
deriving Repr, DecidableEq

/-- Modelled from the spec: `WebOAuthServer.parseAuthCodeFromRequest` —
if state is invalid, closes the request (server `closeRequest`) and
sends an error response, returning no code; if valid, extracts and
returns the `code` query parameter; absence of a code with a valid
state is a protocol error reported the same way. No code exchange is
ever attempted here. The source file webOAuthServer.ts is not under
src/. -/
def parseAuthCodeFromRequest (stateToken : String) (req : Request) :
    Option String × ParseEffects :=
  if validateState stateToken req then
    match req.code with
    | some c => (some c, ⟨0, 0, 0⟩)
    | none => (none, ⟨1, 1, 0⟩)
  else
    (none, ⟨1, 1, 0⟩)

/-- The Credential produced by the external identity-exchange
collaborator; this core only forwards it and reads its front-door
redirect URL. -/
structure Credential where
  frontDoorUrl : String
  fields : List (String × String)
deriving Repr, DecidableEq

/-- Outcome of the external identity-exchange collaborator on a given
authorization code: a Credential, or a rejection carrying a message. -/
inductive ExchangeResult where
  | ok (cred : Credential)
  | err (msg : String)
deriving Repr, DecidableEq

/-- Observable side effects of one `authorizeAndSave` run: number of
`save` calls on the identity collaborator, the list of
`doRedirect (status, location)` calls, the messages passed to the
server's `reportError`, and the forwarded request-parsing effects. -/
structure FlowEffects where
  saveCalls : Nat
  redirectCalls : List (Nat × String)
  reportErrorMsgs : List String
  closeRequestCalls : Nat
  sendErrorCalls : Nat
deriving Repr, DecidableEq

/-- Modelled from the spec: `WebOAuthServer.authorizeAndSave` — after
the server is started and the callback request arrives, validate state
and extract the code (`parseAuthCodeFromRequest`); pass the code to the
external identity-exchange collaborator; on success persist the
Credential (one `save`) and redirect the browser to the Credential's
front-door URL with HTTP 303; on exchange failure call the server's
`reportError` with the failure and propagate it, issuing no redirect.
The source file webOAuthServer.ts is not under src/. -/
def authorizeAndSave (stateToken : String) (req : Request)
    (exchange : String → ExchangeResult) :
    Except String Credential × FlowEffects :=
  match parseAuthCodeFromRequest stateToken req with
  | (some code, pe) =>
    match exchange code with
    | .ok cred =>
      (.ok cred,
       ⟨1, [(303, cred.frontDoorUrl)], [], pe.closeRequestCalls, pe.sendErrorCalls⟩)
    | .err m =>
      (.error m, ⟨0, [], [m], pe.closeRequestCalls, pe.sendErrorCalls⟩)
  | (none, pe) =>
    (.error "StateValidationFailed",
     ⟨0, [], [], pe.closeRequestCalls, pe.sendErrorCalls⟩)

/-- An error surfaced by the web server: a stable identifying `name`
callers can branch on, plus free text. -/
structure WebError where
  name : String
  message : String
deriving Repr, DecidableEq

deriving instance DecidableEq for Except

/-- Modelled from the spec: the PortConflict error raised when the OS
refuses the port because another listener holds it; its identifying
name carries the EADDRINUSE hint. -/
def portConflictError (port : Nat) : WebError :=
  ⟨"EADDRINUSE", "Port " ++ toString port ++ " is already in use"⟩

/-- Modelled from the spec: the SocketTimeout error raised when the
bounded wait elapses before any inbound event. -/
def socketTimeoutError : WebError :=
  ⟨"SOCKET_TIMEOUT", "Socket timeout while waiting for the oauth redirect"⟩

/-- Modelled from the spec: the OS-side stimulus observed by one
`checkOsPort` probe — the OS reports the port in use at time `t`, the
OS reports the port free at time `t`, or no reply ever arrives. -/
inductive OsReply where
  | inUse (t : Nat)
  | free (t : Nat)
  | silent
deriving Repr, DecidableEq

/-- Result of one `checkOsPort` attempt together with how many times the
probe socket / listener was closed (every path must close exactly once,
leaving no dangling socket). -/
structure PortCheckOutcome where
  result : Except WebError Nat
  closeCalls : Nat
deriving Repr, DecidableEq

/-- Modelled from the spec: `WebServer.checkOsPort` — one bounded
port-arbitration probe. If the OS reports the port occupied before the
socket timeout, the attempt fails with the PortConflict error; if the
OS reports it free before the timeout, the attempt succeeds with that
port; if the timeout elapses first (or nothing arrives), the attempt
fails with the SocketTimeout error. Every path closes the probe socket
exactly once. The source file webOAuthServer.ts is not under src/. -/
def checkOsPort (port tmo : Nat) (reply : OsReply) : PortCheckOutcome :=
  match reply with
  | .inUse t =>
    if t < tmo then ⟨.error (portConflictError port), 1⟩
    else ⟨.error socketTimeoutError, 1⟩
  | .free t =>
    if t < tmo then ⟨.ok port, 1⟩
    else ⟨.error socketTimeoutError, 1⟩
  | .silent => ⟨.error socketTimeoutError, 1⟩

/-- `timeoutWins tmo reply` says the socket timeout elapses before any
inbound event arrives. -/
def timeoutWins (tmo : Nat) : OsReply → Bool
  | .inUse t => tmo ≤ t
  | .free t => tmo ≤ t
  | .silent => true

/-- Modelled from the spec: `WebServer.DEFAULT_CLIENT_SOCKET_TIMEOUT`,
the fixed default socket timeout in milliseconds. The source file
webOAuthServer.ts is not under src/. -/
def DEFAULT_CLIENT_SOCKET_TIMEOUT : Nat := 20000

/-- Modelled from the spec: the value the environment collaborator's
`getNumber` yields for the socket-timeout variable — absent, present
but not parseable as a number, or a number. -/
inductive EnvNumber where
  | absent
  | invalid
  | num (n : Int)
deriving Repr, DecidableEq

/-- Modelled from the spec: `WebServer.getSocketTimeout` — returns the
environment override when it is present and parseable as a positive
integer, and the fixed default otherwise; a present-but-invalid or zero
(or negative) override falls back to the default. The source file
webOAuthServer.ts is not under src/. -/
def getSocketTimeout (e : EnvNumber) : Nat :=
  match e with
  | .num n => if 0 < n then n.toNat else DEFAULT_CLIENT_SOCKET_TIMEOUT
  | .invalid => DEFAULT_CLIENT_SOCKET_TIMEOUT
  | .absent => DEFAULT_CLIENT_SOCKET_TIMEOUT

/-- Modelled from the spec: `WebOAuthServer.DEFAULT_PORT`, the
documented default local oauth port. The source file webOAuthServer.ts
is not under src/. -/
def DEFAULT_PORT : Nat := 1717

/-- Modelled from the spec: `WebOAuthServer.determineOauthPort` — reads
the optional project-level `oauthLocalPort` override; if present and
numeric use it, else the documented default port. The override argument
is the (already numeric) value the project-config collaborator yields,
or `none` when no override exists. The source file webOAuthServer.ts is
not under src/. -/
def determineOauthPort (override : Option Nat) : Nat :=
  match override with
  | some p => p
  | none => DEFAULT_PORT

/-- Result of one probe of a polling client: `completed`, with an
optional payload (translated from src/unnamed/part_000, which builds
these records in the `poll` closure of `MyDomainResolver.resolve`). -/
structure PollResult where
  completed : Bool
  payload : Option String
deriving Repr, DecidableEq

/-- The host marker checked by `MyDomainResolver.resolve`
(src/unnamed/part_000 line 48). -/
def internalHostMarker : String := ".internal.salesforce.com"

/-- `host && host.includes('.internal.salesforce.com')` from
src/unnamed/part_000 line 48: the host is non-empty and contains the
internal marker. -/
def isInternalHost (host : String) : Bool :=
  !host.data.isEmpty && includesSub host internalHostMarker

/-- Body of the `poll` closure of `MyDomainResolver.resolve`
(src/unnamed/part_000 lines 43-67) before its catch: the internal-host
short-circuit yields `127.0.0.1` without consulting DNS; otherwise the
DNS lookup result (`dns`, the value `promisify(lookup)(host)` settles
to — an address or a thrown error) is awaited, and a successful lookup
yields its address; a lookup error propagates to the catch. -/
def myDomainPollBody (host : String) (dns : Except String String) :
    Except String PollResult :=
  if isInternalHost host then
    .ok { completed := true, payload := some "127.0.0.1" }
  else
    match dns with
    | .ok addr => .ok { completed := true, payload := some addr }
    | .error e => .error e

/-- The `poll` closure of `MyDomainResolver.resolve`
(src/unnamed/part_000 lines 43-68): the catch block swallows any error
from the body and reports `completed: false` with no payload, so the
probe never propagates an exception. -/
def myDomainPoll (host : String) (dns : Except String String) : PollResult :=
  match myDomainPollBody host dns with
  | .ok r => r
  | .error _ => { completed := false, payload := none }

/-- The polling options built by `MyDomainResolver.resolve`
(src/unnamed/part_000 lines 69-71): durations are represented in
seconds; `this.options.timeout || Duration.seconds(30)` and
`this.options.frequency || Duration.seconds(10)` become `getD` on the
optional fields, and the timeout label is fixed. -/
structure PollingOptions where
  timeout : Nat
  frequency : Nat
  timeoutErrorName : String
deriving Repr, DecidableEq

/-- The options record `MyDomainResolver.resolve` passes to
`PollingClient.create` (src/unnamed/part_000 lines 69-71). -/
def resolvePollingOptions (optTimeout optFrequency : Option Nat) : PollingOptions :=
  { timeout := optTimeout.getD 30
    frequency := optFrequency.getD 10
    timeoutErrorName := "MyDomainResolverTimeoutError" }

/-- Outcome of `PollingClient.subscribe`: resolved with the completing
probe's payload after `attemptsUsed` probe invocations, or timed out
under the configured label. -/
inductive SubscribeOutcome where
  | resolved (payload : Option String) (attemptsUsed : Nat)
  | timedOut (label : String)
deriving Repr, DecidableEq

/-- Modelled from the spec: the attempt loop of
`PollingClient.subscribe` (pollingClient.ts is not under src/). The
probe is indexed by attempt number; the first remaining-attempt budget
is spent on an immediate first attempt, and a probe reporting
`completed` resolves at once with its payload. -/
def subscribeAux (probe : Nat → PollResult) (label : String) :
    Nat → Nat → SubscribeOutcome
  | 0, _ => .timedOut label
  | fuel + 1, i =>
    let r := probe i
    if r.completed then .resolved r.payload (i + 1)
    else subscribeAux probe label fuel (i + 1)

/-- Modelled from the spec: how many attempts fit before the deadline —
an immediate first attempt, then one more each time the frequency
elapses, until the elapsed time exceeds the timeout. -/
def maxAttempts (timeout frequency : Nat) : Nat :=
  timeout / frequency + 1

/-- Modelled from the spec: `PollingClient.subscribe` — retry the probe
on the configured cadence until it reports completion (resolving with
its payload) or the deadline elapses (failing under the configured
timeout label). pollingClient.ts is not under src/. -/
def subscribe (probe : Nat → PollResult) (opts : PollingOptions) : SubscribeOutcome :=
  subscribeAux probe opts.timeoutErrorName (maxAttempts opts.timeout opts.frequency) 0

/-- `MyDomainResolver.resolve` (src/unnamed/part_000 lines 40-75):
build the polling options with defaulted timeout and frequency, create
the polling client over the `poll` closure, and subscribe. `dns i` is
the DNS lookup result the i-th probe would observe. -/
def resolve (host : String) (dns : Nat → Except String String)
    (optTimeout optFrequency : Option Nat) : SubscribeOutcome :=
  subscribe (fun i => myDomainPoll host (dns i))
    (resolvePollingOptions optTimeout optFrequency)

/-! ## Helper lemmas -/

/-- A non-empty pattern never occurs in the empty character list. -/
theorem hasInfixChars_nil_eq (sub : List Char) :
    hasInfixChars sub [] = sub.isEmpty := rfl

/-- If a string includes a non-empty pattern, the string is non-empty. -/
theorem data_not_isEmpty_of_includesSub (s sub : String)
    (hsub : sub.data.isEmpty = false) (h : includesSub s sub = true) :
    s.data.isEmpty = false := by
  cases hs : s.data with
  | nil =>
    rw [includesSub, hs, hasInfixChars_nil_eq, hsub] at h
    exact absurd h (by decide)
  | cons c cs => rfl

/-! ## Claims -/

/-- Claim C1: `validateState` returns true if and only if the callback
request's `state` query parameter matches byte-for-byte the retained
state token; any other value, or an absent `state` parameter, makes it
return false. -/
theorem validateState_iff (stateToken : String) (req : Request) :
    validateState stateToken req = true ↔ req.state = some stateToken := by
  cases h : req.state with
  | none => simp [validateState, h]
  | some s => simp [validateState, h]

/-- Claim C2: with an invalid state, `parseAuthCodeFromRequest` returns
no code, invokes `closeRequest` exactly once and `sendError` exactly
once, and never attempts a code exchange; with a valid state and a
`code` parameter present, it returns exactly that code. -/
theorem parseAuthCodeFromRequest_spec (stateToken : String) (req : Request) :
    (validateState stateToken req = false →
      parseAuthCodeFromRequest stateToken req = (none, ⟨1, 1, 0⟩)) ∧
    (∀ c, validateState stateToken req = true → req.code = some c →
      parseAuthCodeFromRequest stateToken req = (some c, ⟨0, 0, 0⟩)) := by
  constructor
  · intro hv
    simp [parseAuthCodeFromRequest, hv]
  · intro c hv hc
    simp [parseAuthCodeFromRequest, hv, hc]

/-- Witness for C2 at concrete inputs: a mismatched state yields no
code with one close and one error send and zero exchanges; a matched
state with code `abc123456` yields that code. -/
theorem parseAuthCodeFromRequest_spec_witness :
    parseAuthCodeFromRequest "tok" ⟨some "other", some "abc123456"⟩ = (none, ⟨1, 1, 0⟩) ∧
    parseAuthCodeFromRequest "tok" ⟨some "tok", some "abc123456"⟩ = (some "abc123456", ⟨0, 0, 0⟩) :=
  ⟨(parseAuthCodeFromRequest_spec "tok" ⟨some "other", some "abc123456"⟩).1 (by decide),
   (parseAuthCodeFromRequest_spec "tok" ⟨some "tok", some "abc123456"⟩).2 "abc123456"
     (by decide) rfl⟩

/-- Claim C3: on a successful run of `authorizeAndSave` (state valid,
code present, identity exchange succeeds), exactly one save call is
made, the returned Credential is the one produced by the exchange, and
exactly one redirect is issued with status 303 and the Credential's
front-door URL. -/
theorem authorizeAndSave_success (stateToken : String) (req : Request)
    (exchange : String → ExchangeResult) (c : String) (cred : Credential)
    (hv : validateState stateToken req = true) (hc : req.code = some c)
    (hx : exchange c = .ok cred) :
    (authorizeAndSave stateToken req exchange).1 = .ok cred ∧
    (authorizeAndSave stateToken req exchange).2.saveCalls = 1 ∧
    (authorizeAndSave stateToken req exchange).2.redirectCalls = [(303, cred.frontDoorUrl)] := by
  simp [authorizeAndSave, parseAuthCodeFromRequest, hv, hc, hx]

/-- Witness for C3 at concrete inputs: matching state, code present,
exchange yielding a concrete Credential. -/
theorem authorizeAndSave_success_witness :
    (authorizeAndSave "tok" ⟨some "tok", some "abc123456"⟩
        (fun _ => .ok ⟨"https://www.frontdoor.com", []⟩)).1 =
      .ok ⟨"https://www.frontdoor.com", []⟩ ∧
    (authorizeAndSave "tok" ⟨some "tok", some "abc123456"⟩
        (fun _ => .ok ⟨"https://www.frontdoor.com", []⟩)).2.saveCalls = 1 ∧
    (authorizeAndSave "tok" ⟨some "tok", some "abc123456"⟩
        (fun _ => .ok ⟨"https://www.frontdoor.com", []⟩)).2.redirectCalls =
      [(303, "https://www.frontdoor.com")] :=
  authorizeAndSave_success "tok" ⟨some "tok", some "abc123456"⟩
    (fun _ => .ok ⟨"https://www.frontdoor.com", []⟩) "abc123456"
    ⟨"https://www.frontdoor.com", []⟩ (by decide) rfl rfl

/-- Claim C4: when the identity-exchange collaborator rejects with
message M, `authorizeAndSave` fails with message M, `reportError` is
called exactly once with that message, and zero redirect calls are
made. -/
theorem authorizeAndSave_exchangeFailure (stateToken : String) (req : Request)
    (exchange : String → ExchangeResult) (c m : String)
    (hv : validateState stateToken req = true) (hc : req.code = some c)
    (hx : exchange c = .err m) :
    (authorizeAndSave stateToken req exchange).1 = .error m ∧
    (authorizeAndSave stateToken req exchange).2.reportErrorMsgs = [m] ∧
    (authorizeAndSave stateToken req exchange).2.redirectCalls = [] := by
  simp [authorizeAndSave, parseAuthCodeFromRequest, hv, hc, hx]

/-- Witness for C4 at concrete inputs: the exchange rejecting with
message BAD ERROR fails the run with that message, reports it once, and
issues no redirect. -/
theorem authorizeAndSave_exchangeFailure_witness :
    (authorizeAndSave "tok" ⟨some "tok", some "abc123456"⟩
        (fun _ => .err "BAD ERROR")).1 = .error "BAD ERROR" ∧
    (authorizeAndSave "tok" ⟨some "tok", some "abc123456"⟩
        (fun _ => .err "BAD ERROR")).2.reportErrorMsgs = ["BAD ERROR"] ∧
    (authorizeAndSave "tok" ⟨some "tok", some "abc123456"⟩
        (fun _ => .err "BAD ERROR")).2.redirectCalls = [] :=
  authorizeAndSave_exchangeFailure "tok" ⟨some "tok", some "abc123456"⟩
    (fun _ => .err "BAD ERROR") "abc123456" "BAD ERROR" (by decide) rfl rfl

/-- Claim C5: when the OS reports the port occupied before the socket
timeout, `checkOsPort` fails with the PortConflict error, whose
identifying name carries the EADDRINUSE hint and which is
distinguishable from the SocketTimeout error, closing the probe socket
exactly once (no dangling socket); when the OS reports the port free
before the timeout, the attempt succeeds with that port. -/
theorem checkOsPort_conflict_and_free (port tmo t : Nat) (ht : t < tmo) :
    checkOsPort port tmo (.inUse t) = ⟨.error (portConflictError port), 1⟩ ∧
    includesSub (portConflictError port).name "EADDRINUSE" = true ∧
    portConflictError port ≠ socketTimeoutError ∧
    checkOsPort port tmo (.free t) = ⟨.ok port, 1⟩ := by
  refine ⟨by simp [checkOsPort, ht], ?_, ?_, by simp [checkOsPort, ht]⟩
  · show includesSub "EADDRINUSE" "EADDRINUSE" = true
    decide
  · intro hcontra
    have hn := congrArg WebError.name hcontra
    simp [portConflictError, socketTimeoutError] at hn

/-- Witness for C5 at concrete inputs: port 1717, timeout 20000, OS
reply at time 5. -/
theorem checkOsPort_conflict_and_free_witness :
    checkOsPort 1717 20000 (.inUse 5) = ⟨.error (portConflictError 1717), 1⟩ ∧
    includesSub (portConflictError 1717).name "EADDRINUSE" = true ∧
    portConflictError 1717 ≠ socketTimeoutError ∧
    checkOsPort 1717 20000 (.free 5) = ⟨.ok 1717, 1⟩ :=
  checkOsPort_conflict_and_free 1717 20000 5 (by decide)

/-- Claim C6: when the resolved socket timeout elapses before any
inbound event arrives, `checkOsPort` fails with the SocketTimeout
error, whose identifying name carries the SOCKET_TIMEOUT hint, and the
listener is closed exactly once. -/
theorem checkOsPort_timeout (port tmo : Nat) (reply : OsReply)
    (h : timeoutWins tmo reply = true) :
    checkOsPort port tmo reply = ⟨.error socketTimeoutError, 1⟩ ∧
    includesSub socketTimeoutError.name "SOCKET_TIMEOUT" = true := by
  refine ⟨?_, by decide⟩
  cases reply with
  | inUse t =>
    simp only [timeoutWins, decide_eq_true_eq] at h
    simp [checkOsPort, Nat.not_lt.mpr h]
  | free t =>
    simp only [timeoutWins, decide_eq_true_eq] at h
    simp [checkOsPort, Nat.not_lt.mpr h]
  | silent => rfl

/-- Witness for C6 at concrete inputs: a zero socket timeout with a
free-port reply at time 0 (the stubbed-to-zero timeout scenario of the
tests). -/
theorem checkOsPort_timeout_witness :
    checkOsPort 1717 0 (.free 0) = ⟨.error socketTimeoutError, 1⟩ ∧
    includesSub socketTimeoutError.name "SOCKET_TIMEOUT" = true :=
  checkOsPort_timeout 1717 0 (.free 0) (by decide)

/-- Claim C7: `getSocketTimeout` returns the environment override when
it is present and parseable as a positive integer, and the fixed
default otherwise; a present-but-invalid override, a zero (or negative)
override, or an absent override all fall back to the default. -/
theorem getSocketTimeout_spec (e : EnvNumber) :
    (∀ n : Int, e = .num n → 0 < n → getSocketTimeout e = n.toNat) ∧
    (∀ n : Int, e = .num n → n ≤ 0 →
      getSocketTimeout e = DEFAULT_CLIENT_SOCKET_TIMEOUT) ∧
    (e = .invalid → getSocketTimeout e = DEFAULT_CLIENT_SOCKET_TIMEOUT) ∧
    (e = .absent → getSocketTimeout e = DEFAULT_CLIENT_SOCKET_TIMEOUT) := by
  refine ⟨?_, ?_, ?_, ?_⟩
  · intro n he hn
    subst he
    simp [getSocketTimeout, hn]
  · intro n he hn
    subst he
    simp [getSocketTimeout, Int.not_lt.mpr hn]
  · intro he
    subst he
    rfl
  · intro he
    subst he
    rfl

/-- Witness for C7 at concrete inputs: override 5000 is returned;
an invalid override, an override of 0, and an absent override each
yield the default. -/
theorem getSocketTimeout_spec_witness :
    getSocketTimeout (.num 5000) = 5000 ∧
    getSocketTimeout .invalid = DEFAULT_CLIENT_SOCKET_TIMEOUT ∧
    getSocketTimeout (.num 0) = DEFAULT_CLIENT_SOCKET_TIMEOUT ∧
    getSocketTimeout .absent = DEFAULT_CLIENT_SOCKET_TIMEOUT :=
  ⟨(getSocketTimeout_spec (.num 5000)).1 5000 rfl (by decide),
   (getSocketTimeout_spec .invalid).2.2.1 rfl,
   (getSocketTimeout_spec (.num 0)).2.1 0 rfl (by decide),
   (getSocketTimeout_spec .absent).2.2.2 rfl⟩

/-- Claim C8: `determineOauthPort` returns the project-level
`oauthLocalPort` override when present and numeric, and the documented
default port 1717 when no override exists. -/
theorem determineOauthPort_spec :
    determineOauthPort none = 1717 ∧
    determineOauthPort none = DEFAULT_PORT ∧
    ∀ p, determineOauthPort (some p) = p :=
  ⟨rfl, rfl, fun _ => rfl⟩

/-- Claim C9: the DNS probe of `MyDomainResolver.resolve` never
propagates an exception: any error escaping the probe body is caught
and converted to `completed: false`; when a DNS lookup is performed
(non-internal host), a successful lookup yields `completed: true` with
the resolved address as payload, and a failed lookup yields
`completed: false` with no payload. -/
theorem myDomainPoll_spec (host : String) (dns : Except String String) :
    (∀ e, myDomainPollBody host dns = .error e →
      myDomainPoll host dns = ⟨false, none⟩) ∧
    (isInternalHost host = false →
      (∀ a, dns = .ok a → myDomainPoll host dns = ⟨true, some a⟩) ∧
      (∀ e, dns = .error e → myDomainPoll host dns = ⟨false, none⟩)) := by
  refine ⟨?_, ?_⟩
  · intro e he
    simp [myDomainPoll, he]
  · intro hni
    constructor
    · intro a ha
      simp [myDomainPoll, myDomainPollBody, hni, ha]
    · intro e he
      simp [myDomainPoll, myDomainPollBody, hni, he]

/-- Witness for C9 at concrete inputs: for host example.com a
successful lookup of 1.2.3.4 completes with that address, and a failed
lookup reports not-completed with no payload. -/
theorem myDomainPoll_spec_witness :
    myDomainPoll "example.com" (.ok "1.2.3.4") = ⟨true, some "1.2.3.4"⟩ ∧
    myDomainPoll "example.com" (.error "ENOTFOUND") = ⟨false, none⟩ :=
  ⟨((myDomainPoll_spec "example.com" (.ok "1.2.3.4")).2 (by decide)).1
      "1.2.3.4" rfl,
   ((myDomainPoll_spec "example.com" (.error "ENOTFOUND")).2 (by decide)).2
      "ENOTFOUND" rfl⟩

/-- Claim C10: for a host containing the substring
.internal.salesforce.com, `resolve` resolves to 127.0.0.1 on the first
probe regardless of DNS (no lookup is ever consulted); and with
timeout and frequency omitted, the polling options default to 30
seconds timeout, 10 seconds frequency, and the timeout label
MyDomainResolverTimeoutError. -/
theorem resolve_internal_spec (host : String) (dns : Nat → Except String String)
    (optTimeout optFrequency : Option Nat)
    (h : includesSub host internalHostMarker = true) :
    resolve host dns optTimeout optFrequency = .resolved (some "127.0.0.1") 1 ∧
    resolvePollingOptions none none =
      ⟨30, 10, "MyDomainResolverTimeoutError"⟩ := by
  refine ⟨?_, rfl⟩
  have hne : host.data.isEmpty = false :=
    data_not_isEmpty_of_includesSub host internalHostMarker (by decide) h
  have hint : isInternalHost host = true := by
    simp [isInternalHost, hne, h]
  have hprobe : myDomainPoll host (dns 0) = ⟨true, some "127.0.0.1"⟩ := by
    simp [myDomainPoll, myDomainPollBody, hint]
  simp [resolve, subscribe, resolvePollingOptions, maxAttempts, subscribeAux, hprobe]

/-- Witness for C10 at concrete inputs: host
foo.internal.salesforce.com resolves to 127.0.0.1 on the first probe
even though every DNS lookup would fail. -/
theorem resolve_internal_spec_witness :
    resolve "foo.internal.salesforce.com" (fun _ => .error "ENOTFOUND")
        none none = .resolved (some "127.0.0.1") 1 ∧
    resolvePollingOptions none none =
      ⟨30, 10, "MyDomainResolverTimeoutError"⟩ :=
  resolve_internal_spec "foo.internal.salesforce.com"
    (fun _ => .error "ENOTFOUND") none none (by decide)

end Sfdx
